import Mathlib

/-!
Verification of the word-to-card compilation pipeline of the
Japanese-Anki-Kards-Generator repository.

The definitions below are a shallow embedding of the Python sources:
  - src/backend/services/japanese_text.py   (JapaneseTextProcessor)
  - src/backend/services/vocabulary_processor.py (VocabularyProcessor)
  - src/backend/services/anki_builder.py    (build_anki_note, create_anki_package)

External collaborators (the fugashi tokenizer, the pykakasi transliterator,
the MD5 digest, base64 decoding, and the filesystem existence test) are
modelled as explicit function parameters, mirroring the spec's treatment of
them as injected capabilities.  Machine-level types: Python unicode strings
are Lean `String` (a list of scalar-value characters, matching Python's
per-character indexing and `len`), bytes are `List UInt8`.
-/

namespace AnkiKards

/-! ## ScriptClassifier: japanese_text.py character-range predicates -/

/-- Character test used by `JapaneseTextProcessor.is_katakana`:
code point in the katakana block U+30A0..U+30FF. -/
def isKatakanaChar (c : Char) : Bool :=
  0x30A0 ≤ c.toNat && c.toNat ≤ 0x30FF

/-- `JapaneseTextProcessor.is_katakana` (japanese_text.py lines 80-91):
true iff some character lies in U+30A0..U+30FF. -/
def is_katakana (text : String) : Bool :=
  text.data.any isKatakanaChar

/-- Per-character kanji test of `JapaneseTextProcessor.is_kanji`
(japanese_text.py lines 104-112): the six CJK ideograph ranges. -/
def isKanjiChar (c : Char) : Bool :=
  let n := c.toNat
  (0x4E00 ≤ n && n ≤ 0x9FFF) ||
  (0x3400 ≤ n && n ≤ 0x4DBF) ||
  (0x20000 ≤ n && n ≤ 0x2A6DF) ||
  (0x2A700 ≤ n && n ≤ 0x2B73F) ||
  (0x2B740 ≤ n && n ≤ 0x2B81F) ||
  (0xF900 ≤ n && n ≤ 0xFAFF)

/-- `JapaneseTextProcessor.is_kanji` (japanese_text.py lines 93-113). -/
def is_kanji (text : String) : Bool :=
  text.data.any isKanjiChar

/-- Hiragana-range test used inside `is_pure_katakana`
(japanese_text.py line 133): U+3040..U+309F. -/
def isHiraganaChar (c : Char) : Bool :=
  0x3040 ≤ c.toNat && c.toNat ≤ 0x309F

/-- Python's `str.isspace`, per character: the Unicode whitespace set that
CPython uses (ASCII whitespace, the C1 separators U+001C-U+001F, NEL,
NBSP, Ogham space, the U+2000 range, line/paragraph separators, narrow
and medium spaces, and the ideographic space). -/
def pyIsSpace (c : Char) : Bool :=
  let n := c.toNat
  (0x9 ≤ n && n ≤ 0xD) || (0x1C ≤ n && n ≤ 0x1F) || n = 0x20 ||
  n = 0x85 || n = 0xA0 || n = 0x1680 || (0x2000 ≤ n && n ≤ 0x200A) ||
  n = 0x2028 || n = 0x2029 || n = 0x202F || n = 0x205F || n = 0x3000

/-- Truthiness of Python's `s.strip()`: blank iff every character is
whitespace (so the empty string is blank). -/
def pyBlank (s : String) : Bool :=
  s.data.all pyIsSpace

/-- The character filter of `is_pure_katakana` line 140-142: katakana block,
whitespace, or one of the two marks '・' (U+30FB) and 'ー' (U+30FC). -/
def pureKatakanaAllowed (c : Char) : Bool :=
  isKatakanaChar c || pyIsSpace c || c = '・' || c = 'ー'

/-- `JapaneseTextProcessor.is_pure_katakana` (japanese_text.py lines 115-146):
nonempty, no kanji, no hiragana, all characters katakana/whitespace/the two
marks, and at least one character in the katakana block. -/
def is_pure_katakana (text : String) : Bool :=
  if text = "" then false
  else if is_kanji text then false
  else if text.data.any isHiraganaChar then false
  else if !(text.data.all pureKatakanaAllowed) then false
  else text.data.any isKatakanaChar

/-! ## FuriganaAligner: japanese_text.py build_furigana -/

/-- The token loop of `JapaneseTextProcessor.build_furigana`
(japanese_text.py lines 61-78).  `conv` is the injected
`convert_to_hiragana` capability, `rdata` the characters of the full
hiragana reading, and `i` the running `reading_index`.  Python's slice
`reading_hiragana[i:i+kana_len]` is `(rdata.drop i).take kanaLen`. -/
def buildFuriganaAux (conv : String → String) (rdata : List Char) :
    List String → Nat → String
  | [], _ => ""
  | t :: ts, i =>
    let kana := conv t
    let kanaLen := kana.length
    let segment := String.mk ((rdata.drop i).take kanaLen)
    (if t = kana then t else t ++ "[" ++ segment ++ "]") ++
      buildFuriganaAux conv rdata ts (i + kanaLen)

/-- `JapaneseTextProcessor.build_furigana` (japanese_text.py lines 49-78).
`tagger` is the injected fugashi segmentation capability returning the
ordered token surface forms. -/
def build_furigana (conv : String → String) (tagger : String → List String)
    (kanji_word reading_hiragana : String) : String :=
  buildFuriganaAux conv reading_hiragana.data (tagger kanji_word) 0

/-- Strips every bracketed reading annotation from an aligned string:
outside a bracket group, '[' switches to skipping; inside, ']' switches
back.  This is the spec's "with all bracket annotations stripped". -/
def stripBracketsAux : Bool → List Char → List Char
  | _, [] => []
  | false, c :: cs =>
    if c = '[' then stripBracketsAux true cs else c :: stripBracketsAux false cs
  | true, c :: cs =>
    if c = ']' then stripBracketsAux false cs else stripBracketsAux true cs

/-- String-level bracket stripping. -/
def stripBrackets (s : String) : String :=
  String.mk (stripBracketsAux false s.data)

/-! ## ReadingNormalizer and AudioNamer: vocabulary_processor.py -/

/-- The reading-normalization step of `VocabularyProcessor.process_word`
(vocabulary_processor.py lines 82-87): keep a pure-katakana reading as-is,
otherwise delegate to the injected transliteration capability `conv`. -/
def normalizeReading (conv : String → String) (reading : String) : String :=
  if is_pure_katakana reading then reading else conv reading

/-- Python truthiness of an optional string: `None` and `""` are falsy. -/
def optTruthy : Option String → Bool
  | none => false
  | some s => s != ""

/-- `VocabularyProcessor._determine_audio_filename`
(vocabulary_processor.py lines 24-47). -/
def determine_audio_filename (kanji : Option String)
    (reading reading_hiragana : String) : String :=
  if optTruthy kanji then (kanji.getD "") ++ "(" ++ reading_hiragana ++ ")"
  else if is_katakana reading then reading
  else reading_hiragana

/-- Python's per-character `str.startswith`: the first characters of `s`
equal `pre`. -/
def strStartsWith (s pre : String) : Bool :=
  s.data.take pre.data.length == pre.data

/-- Python's `str.split` on a single-character separator, over char
lists: every occurrence of the separator starts a new piece, and the
empty string yields one empty piece. -/
def splitOnCharAux (sep : Char) : List Char → List (List Char)
  | [] => [[]]
  | c :: cs =>
    let rest := splitOnCharAux sep cs
    if c = sep then [] :: rest
    else (c :: rest.headD []) :: rest.tail

/-- String-level split on a single-character separator. -/
def strSplitOnChar (sep : Char) (s : String) : List String :=
  (splitOnCharAux sep s.data).map String.mk

/-- ASCII lowercasing, per character (Python's `str.lower` agrees on the
ASCII subtypes the extension map knows). -/
def strToLower (s : String) : String :=
  String.mk (s.data.map Char.toLower)

/-! ## Data model for anki_builder.py -/

/-- Input of `build_anki_note` (anki_builder.py lines 13-30): the processed
word dictionary assembled by `VocabularyProcessor.process_word`
(vocabulary_processor.py lines 121-132).  `generation_mode` rides along for
the later `create_anki_package` step. -/
structure Word where
  kanji : Option String
  reading_hiragana : String
  reading_furigana : String
  translation : String
  audio_paths : List String
  sentence_kana : String
  sentence_english : String
  sentence_image : String
  sentence_audio_paths : List String
  generation_mode : String
deriving DecidableEq, Repr

/-- The 18-entry field dictionary of the Japanese-75658 note type
(anki_builder.py lines 139-158). -/
structure Fields where
  vocabularyKanji : String
  vocabularyFurigana : String
  vocabularyKana : String
  vocabularyEnglish : String
  vocabularyAudio : String
  vocabularyPos : String
  caution : String
  expression : String
  reading : String
  sentenceKana : String
  sentenceEnglish : String
  sentenceClozed : String
  sentenceAudio : String
  sentenceImage : String
  notesField : String
  coreIndex : String
  optimizedVocIndex : String
  optimizedSentIndex : String
deriving DecidableEq, Repr

/-- One entry of the `audio` array (anki_builder.py lines 60-63). -/
structure AudioRef where
  path : String
  filename : String
deriving DecidableEq, Repr

/-- One entry of the `images` array (anki_builder.py lines 119-122):
decoded bytes pending materialization plus the content-derived filename. -/
structure ImageAsset where
  data : List UInt8
  filename : String
deriving DecidableEq, Repr

/-- The return value of `build_anki_note` (anki_builder.py lines 137-161). -/
structure AnkiNote where
  fields : Fields
  audio : List AudioRef
  images : List ImageAsset
deriving DecidableEq, Repr

/-- `os.path.basename` for POSIX paths: the part after the last '/'. -/
def basename (path : String) : String :=
  (strSplitOnChar '/' path).reverse.headD ""

/-- Python's `s.split(",", 1)` destructured into two parts: `none` when the
string has no comma (where Python's two-name unpacking raises ValueError). -/
def splitComma1 (s : String) : Option (String × String) :=
  if s.data.contains ',' then
    some (String.mk (s.data.takeWhile (fun c => c != ',')),
          String.mk ((s.data.dropWhile (fun c => c != ',')).drop 1))
  else none

/-- The `ext_map` lookup of anki_builder.py lines 107-108 with its "png"
default, applied to an already-lowercased subtype. -/
def extFromFormat (fmt : String) : String :=
  if fmt = "jpeg" then "jpg"
  else if fmt = "jpg" then "jpg"
  else if fmt = "png" then "png"
  else if fmt = "gif" then "gif"
  else if fmt = "webp" then "webp"
  else "png"

/-- The declared image subtype of a data URL, lowercased:
`header.split("/")[1].split(";")[0]` of anki_builder.py line 105.  `none`
when the string has no comma or the header has no '/' (both raise in
Python and are caught by the surrounding handler). -/
def imageFormatOf (sentence_image_data : String) : Option String :=
  match splitComma1 sentence_image_data with
  | none => none
  | some (header, _) =>
    match (strSplitOnChar '/' header).get? 1 with
    | none => none
    | some part => some (strToLower ((strSplitOnChar ';' part).headD ""))

/-- The filename assigned to a decoded image (anki_builder.py lines 113-116):
`sentence_` + first 8 hex digits of the MD5 of the bytes + `.` + extension. -/
def imageFilenameFor (md5hex : List UInt8 → String) (bytes : List UInt8)
    (fmt : String) : String :=
  "sentence_" ++ (md5hex bytes).take 8 ++ "." ++ extFromFormat fmt

/-- The sentence-image block of `build_anki_note` (anki_builder.py lines
94-135).  Returns (Sentence-Image field value, Sentence-English field value,
`images` array).  `md5hex` is the injected MD5 hex digest, `b64` the
injected base64 decoder; `b64` returning `none` models `base64.b64decode`
raising, which the Python handler catches, leaving the field empty and the
image array untouched (the decode happens before any mutation). -/
def imageParts (md5hex : List UInt8 → String)
    (b64 : String → Option (List UInt8))
    (sentence_image_data sentence_english : String) :
    String × String × List ImageAsset :=
  if sentence_image_data = "" then ("", sentence_english, [])
  else if !(strStartsWith sentence_image_data "data:image/") then
    ("", sentence_english, [])
  else
    match splitComma1 sentence_image_data, imageFormatOf sentence_image_data with
    | some (_, encoded), some fmt =>
      match b64 encoded with
      | none => ("", sentence_english, [])
      | some bytes =>
        let image_filename := imageFilenameFor md5hex bytes fmt
        let field := "<img src=\"" ++ image_filename ++ "\">"
        let engWith :=
          if sentence_english != "" then
            sentence_english ++ "<br><br>" ++ field
          else field
        (field, engWith, [ImageAsset.mk bytes image_filename])
    | _, _ => ("", sentence_english, [])

/-- `build_anki_note` (anki_builder.py lines 13-161). -/
def build_anki_note (md5hex : List UInt8 → String)
    (b64 : String → Option (List UInt8)) (word : Word) : AnkiNote :=
  let vocabulary_kanji :=
    if optTruthy word.kanji then word.kanji.getD "" else word.reading_hiragana
  let vocabulary_furigana := word.reading_hiragana
  let vocabulary_kana := word.reading_hiragana
  let vocabulary_english := word.translation
  let reading_furigana :=
    if optTruthy word.kanji then word.reading_furigana else ""
  let expression := vocabulary_kanji
  let audio_field :=
    String.join (word.audio_paths.map (fun p => "[sound:" ++ basename p ++ "]"))
  let audioVocab := word.audio_paths.map (fun p => AudioRef.mk p (basename p))
  let reading_parts :=
    (if reading_furigana != "" then [reading_furigana] else []) ++
    (if word.sentence_kana != "" then [word.sentence_kana] else [])
  let reading := String.intercalate "<br>" reading_parts
  let sentence_audio_field :=
    String.join
      (word.sentence_audio_paths.map (fun p => "[sound:" ++ basename p ++ "]"))
  let audioSent :=
    word.sentence_audio_paths.map (fun p => AudioRef.mk p (basename p))
  let ip := imageParts md5hex b64 word.sentence_image word.sentence_english
  { fields :=
    { vocabularyKanji := vocabulary_kanji
      vocabularyFurigana := vocabulary_furigana
      vocabularyKana := vocabulary_kana
      vocabularyEnglish := vocabulary_english
      vocabularyAudio := audio_field
      vocabularyPos := ""
      caution := ""
      expression := expression
      reading := reading
      sentenceKana := word.sentence_kana
      sentenceEnglish := ip.2.1
      sentenceClozed := ""
      sentenceAudio := sentence_audio_field
      sentenceImage := ip.1
      notesField := ""
      coreIndex := ""
      optimizedVocIndex := ""
      optimizedSentIndex := "" }
    audio := audioVocab ++ audioSent
    images := ip.2.2 }

/-! ## DeckAssembler: anki_builder.py create_anki_package -/

/-- The two note models of anki_builder.py lines 189-271: Japanese-to-English
and English-to-Japanese. -/
inductive Direction
  | jp_en
  | en_jp
deriving DecidableEq, Repr

/-- One genanki note: its model (direction) and its 18 field values in the
fixed schema order of the model definition. -/
structure GNote where
  direction : Direction
  fields : List String
deriving DecidableEq, Repr

/-- One element of the `results` list consumed by `create_anki_package`:
the parts of the processed item that the deck loop reads
(anki_builder.py lines 281-313). -/
structure Item where
  kanji : Option String
  generation_mode : String
  anki_note : Option AnkiNote
deriving DecidableEq, Repr

/-- `has_kanji` of anki_builder.py line 313: the item's kanji is truthy and
its strip() is truthy. -/
def has_kanji (item : Item) : Bool :=
  optTruthy item.kanji && !pyBlank (item.kanji.getD "")

/-- The note-creation body of the `create_anki_package` loop
(anki_builder.py lines 281-387) for one item: the Japanese-to-English note
when `should_create_jp_en` holds, then the English-to-Japanese note when
`should_create_en_jp` holds.  Items without note data are skipped
(line 283-284). -/
def itemNotes (item : Item) : List GNote :=
  match item.anki_note with
  | none => []
  | some an =>
    let f := an.fields
    let generation_mode := item.generation_mode
    let should_create_jp_en :=
      !pyBlank f.vocabularyKanji &&
        (generation_mode == "both" || generation_mode == "jp_en")
    let jpNotes :=
      if should_create_jp_en then
        [GNote.mk Direction.jp_en
          [f.vocabularyKanji, f.vocabularyFurigana,
           (if !(has_kanji item) then "" else f.vocabularyKana),
           f.vocabularyEnglish, f.vocabularyAudio, f.vocabularyPos,
           f.caution, f.expression, f.reading, f.sentenceKana,
           f.sentenceEnglish, f.sentenceClozed, f.sentenceAudio,
           f.sentenceImage, f.notesField, f.coreIndex,
           f.optimizedVocIndex, f.optimizedSentIndex]]
      else []
    let should_create_en_jp :=
      !pyBlank f.vocabularyEnglish &&
        (generation_mode == "both" || generation_mode == "en_jp")
    let enNotes :=
      if should_create_en_jp then
        [GNote.mk Direction.en_jp
          [f.vocabularyEnglish, f.vocabularyFurigana, f.vocabularyKana,
           "  ", f.vocabularyAudio, f.vocabularyPos, f.caution,
           f.expression, f.reading, f.sentenceKana, f.sentenceEnglish,
           f.sentenceClozed, f.sentenceAudio, f.sentenceImage,
           f.notesField, f.coreIndex, f.optimizedVocIndex,
           f.optimizedSentIndex]]
      else []
    jpNotes ++ enNotes

/-- The media-collection body of the `create_anki_package` loop
(anki_builder.py lines 389-408) for one item: audio paths that pass the
injected existence test `fe`, then the materialized image paths
`results_dir/Media/filename` (written only when both the bytes and the
filename are truthy). -/
def itemMedia (fe : String → Bool) (results_dir : String) (item : Item) :
    List String :=
  match item.anki_note with
  | none => []
  | some an =>
    ((an.audio.filter (fun a => a.path != "" && fe a.path)).map AudioRef.path)
    ++ (an.images.filterMap (fun im =>
          if im.data != [] && im.filename != "" then
            some (results_dir ++ "/Media/" ++ im.filename)
          else none))

/-- The deck plus media list produced by `create_anki_package`
(anki_builder.py lines 417-418). -/
structure Package where
  notes : List GNote
  media_files : List String
deriving DecidableEq, Repr

/-- The error message of anki_builder.py line 412. -/
def emptyDeckMsg : String :=
  "No notes were added to the deck. Cannot create empty Anki package."

/-- `create_anki_package` (anki_builder.py lines 164-425): run the loop over
all items, fail when zero notes were added, otherwise return the deck with
the media list deduplicated (`list(set(media_files))`, modelled as
`List.dedup`: same members, each exactly once). -/
def create_anki_package (fe : String → Bool) (results_dir : String)
    (items : List Item) : Except String Package :=
  let notes := items.flatMap itemNotes
  let media := items.flatMap (itemMedia fe results_dir)
  if notes.length = 0 then Except.error emptyDeckMsg
  else Except.ok (Package.mk notes media.dedup)

/-! ## Pipeline glue: vocabulary_processor.py process_word / process_vocabulary -/

/-- The item dictionary built by `VocabularyProcessor.process_word`
(vocabulary_processor.py lines 121-135) as consumed by the deck loop:
the word data together with its attached note structure. -/
def mkItem (md5hex : List UInt8 → String)
    (b64 : String → Option (List UInt8)) (w : Word) : Item :=
  { kanji := w.kanji
    generation_mode := w.generation_mode
    anki_note := some (build_anki_note md5hex b64 w) }

/-- `VocabularyProcessor.process_vocabulary` (vocabulary_processor.py lines
139-156): one processed item per input word, in order. -/
def process_vocabulary (md5hex : List UInt8 → String)
    (b64 : String → Option (List UInt8)) (words : List Word) : List Item :=
  words.map (mkItem md5hex b64)

/-- The Japanese-to-English note of an item, when produced. -/
def jpNote (item : Item) : Option GNote :=
  (itemNotes item).find? (fun n => n.direction == Direction.jp_en)

/-- The English-to-Japanese note of an item, when produced. -/
def enNote (item : Item) : Option GNote :=
  (itemNotes item).find? (fun n => n.direction == Direction.en_jp)

/-! ## Concrete sample data used by witnesses -/

/-- A fixed stand-in for the MD5 hex digest capability. -/
def md5_0 : List UInt8 → String := fun _ => "d41d8cd98f00b204e9800998ecf8427e"

/-- A base64 decoder stand-in that fails on every input. -/
def b64_0 : String → Option (List UInt8) := fun _ => none

/-- A filesystem-existence stand-in: no path exists. -/
def fe_0 : String → Bool := fun _ => false

/-- The spec's end-to-end sample word: reading "ねこ", no kanji,
translation "cat", mode "both". -/
def wNeko : Word :=
  { kanji := none
    reading_hiragana := "ねこ"
    reading_furigana := "ねこ"
    translation := "cat"
    audio_paths := []
    sentence_kana := ""
    sentence_english := ""
    sentence_image := ""
    sentence_audio_paths := []
    generation_mode := "both" }

/-- The processed item for `wNeko`. -/
def itemNeko : Item := mkItem md5_0 b64_0 wNeko

/-- `wNeko` with the unrecognized mode string "forward". -/
def wForward : Word := { wNeko with generation_mode := "forward" }

/-- The processed item for `wForward`. -/
def itemForward : Item := mkItem md5_0 b64_0 wForward

/-- The deck built from `itemNeko` alone. -/
def pkgNeko : Package :=
  (create_anki_package fe_0 "results" [itemNeko]).toOption.getD (Package.mk [] [])

/-- The spec's kanji sample word 郵便局. -/
def wPost : Word :=
  { kanji := some "郵便局"
    reading_hiragana := "ゆうびんきょく"
    reading_furigana := "郵便[ゆうびん]局[きょく]"
    translation := "post office"
    audio_paths := []
    sentence_kana := ""
    sentence_english := ""
    sentence_image := ""
    sentence_audio_paths := []
    generation_mode := "both" }

/-- A word whose embedded image data fails to decode. -/
def wBadImage : Word :=
  { wNeko with sentence_image := "data:image/png;base64,%%notbase64%%" }

/-- A word with kanji but a blank hiragana reading. -/
def wBlankReading : Word :=
  { kanji := some "日"
    reading_hiragana := ""
    reading_furigana := ""
    translation := "sun"
    audio_paths := []
    sentence_kana := ""
    sentence_english := ""
    sentence_image := ""
    sentence_audio_paths := []
    generation_mode := "both" }

/-- The forward note the deck loop builds for `wBlankReading`. -/
def noteJpBlank : GNote :=
  GNote.mk Direction.jp_en
    ["日", "", "", "sun", "", "", "", "日", "", "", "", "", "", "", "", "",
     "", ""]

/-- The forward note the deck loop builds for `wPost`. -/
def noteJpPost : GNote :=
  GNote.mk Direction.jp_en
    ["郵便局", "ゆうびんきょく", "ゆうびんきょく", "post office", "", "", "",
     "郵便局", "郵便[ゆうびん]局[きょく]", "", "", "", "", "", "", "", "", ""]

/-- The reverse note the deck loop builds for `wNeko`. -/
def noteEnNeko : GNote :=
  GNote.mk Direction.en_jp
    ["cat", "ねこ", "ねこ", "  ", "", "", "", "ねこ", "", "", "", "", "", "",
     "", "", "", ""]

/-- A concrete transliteration capability for the 郵便局 sample. -/
def convYubin : String → String :=
  fun t => if t = "郵便" then "ゆうびん" else if t = "局" then "きょく" else t

/-- A concrete tokenizer capability for the 郵便局 sample. -/
def taggerYubin : String → List String :=
  fun w => if w = "郵便局" then ["郵便", "局"] else [w]

/-- A concrete MD5 stand-in with a fixed 32-hex-digit digest. -/
def c6md5 : List UInt8 → String := fun _ => "0123456789abcdef0123456789abcdef"

/-- A concrete base64 decoder defined on the payload "iVBORw0KGgo=". -/
def c6b64 : String → Option (List UInt8) :=
  fun s => if s = "iVBORw0KGgo=" then some [137, 80, 78, 71] else none

/-- A data URL declaring subtype png. -/
def c6imgPng : String := "data:image/png;base64,iVBORw0KGgo="

/-- The same payload declared as subtype jpeg. -/
def c6imgJpeg : String := "data:image/jpeg;base64,iVBORw0KGgo="

/-- The image asset produced from `c6imgPng` under `c6md5`/`c6b64`. -/
def c6asset : ImageAsset := ImageAsset.mk [137, 80, 78, 71] "sentence_01234567.png"

/-- `wNeko` carrying the png-declared embedded image. -/
def wImg1 : Word := { wNeko with sentence_image := c6imgPng }

/-- `wPost` carrying the byte-identical embedded image. -/
def wImg2 : Word :=
  { wPost with sentence_image := c6imgPng, sentence_english := "A post office." }

/-- The processed batch holding the two image-sharing words. -/
def c6items : List Item := process_vocabulary c6md5 c6b64 [wImg1, wImg2]

/-- The deck built from `c6items`. -/
def c6pkg : Package :=
  (create_anki_package fe_0 "R" c6items).toOption.getD (Package.mk [] [])

/-- The materialized path of the shared image. -/
def c6path : String := "R/Media/sentence_01234567.png"

/-! ## The claim's reading of is_pure_katakana, following the spec's words -/

/-- A katakana character in the sense of the claim's enumeration, which
lists the prolonged-sound mark and the middle dot as separate punctuation
categories: a katakana-block character other than those two marks. -/
def isActualKatakanaChar (c : Char) : Bool :=
  isKatakanaChar c && c != '・' && c != 'ー'

/-- Modelled from the claim's words (spec section 4.1): non-empty, no
kanji, no hiragana, every character katakana/whitespace/prolonged-sound
mark/middle dot, and at least one actual katakana character (a katakana
letter, not one of the two marks). -/
def specIsPureKatakana (text : String) : Bool :=
  text != "" && !is_kanji text && !(text.data.any isHiraganaChar) &&
  text.data.all pureKatakanaAllowed && text.data.any isActualKatakanaChar

/-! ## Theorems -/

/-- C3: for every input reading judged pure katakana by the script
classifier, the reading-normalization step returns the input unchanged;
for every other input it returns the external transliteration
capability's hiragana rendering of the input. -/
theorem c3_normalize_preserves_katakana (conv : String → String)
    (reading : String) :
    (is_pure_katakana reading = true →
      normalizeReading conv reading = reading) ∧
    (is_pure_katakana reading = false →
      normalizeReading conv reading = conv reading) := by
  constructor <;> intro h <;> simp [normalizeReading, h]

/-- Witness for C3 at the pure-katakana input "ケーキ" and the
non-katakana input "ねこ". -/
theorem c3_normalize_witness :
    normalizeReading (fun s => s ++ "!") "ケーキ" = "ケーキ" ∧
    normalizeReading (fun s => s ++ "!") "ねこ" = "ねこ!" :=
  ⟨(c3_normalize_preserves_katakana (fun s => s ++ "!") "ケーキ").1 (by decide),
   (c3_normalize_preserves_katakana (fun s => s ++ "!") "ねこ").2 (by decide)⟩

/-- C5: the audio base filename is "kanji(hiragana)" when the kanji surface
is present (truthy); otherwise the original reading verbatim when it
contains any katakana character, and the hiragana reading otherwise. -/
theorem c5_audio_base_name (kanji : Option String)
    (reading reading_hiragana : String) :
    (optTruthy kanji = true →
      determine_audio_filename kanji reading reading_hiragana =
        (kanji.getD "") ++ "(" ++ reading_hiragana ++ ")") ∧
    (optTruthy kanji = false → is_katakana reading = true →
      determine_audio_filename kanji reading reading_hiragana = reading) ∧
    (optTruthy kanji = false → is_katakana reading = false →
      determine_audio_filename kanji reading reading_hiragana =
        reading_hiragana) := by
  refine ⟨?_, ?_, ?_⟩ <;> intros <;> simp [determine_audio_filename, *]

/-- Witness for C5 at the spec's three worked examples. -/
theorem c5_audio_base_name_witness :
    determine_audio_filename (some "郵便局") "ゆうびんきょく" "ゆうびんきょく" =
      "郵便局(ゆうびんきょく)" ∧
    determine_audio_filename none "ケーキ" "けーき" = "ケーキ" ∧
    determine_audio_filename none "ねこ" "ねこ" = "ねこ" :=
  ⟨(c5_audio_base_name (some "郵便局") "ゆうびんきょく" "ゆうびんきょく").1
      (by decide),
   (c5_audio_base_name none "ケーキ" "けーき").2.1 (by decide) (by decide),
   (c5_audio_base_name none "ねこ" "ねこ").2.2 (by decide) (by decide)⟩

/-- C7 counterexample: the code judges the lone prolonged-sound mark "ー"
pure katakana (its final any-katakana check uses the whole katakana block,
which contains the two marks), while the claim's characterization — which
classes the prolonged-sound mark and middle dot as punctuation, not as
actual katakana — demands false for a text that is entirely punctuation
with no actual katakana character. -/
theorem c7_pure_katakana_counterexample :
    is_pure_katakana "ー" = true ∧ specIsPureKatakana "ー" = false ∧
    is_pure_katakana "・" = true ∧ specIsPureKatakana "・" = false := by
  refine ⟨by decide, by decide, by decide, by decide⟩

/-- C7 amended: isPureKatakana is true iff the text is non-empty, contains
no kanji and no hiragana, every character is katakana-block, whitespace,
the prolonged-sound mark, or the middle dot, and the text contains at
least one katakana-block character — where the final check counts the two
marks themselves as katakana; consequently any text with no katakana-block
character at all (entirely whitespace and/or other punctuation) yields
false. -/
theorem c7_pure_katakana_characterization (text : String) :
    (is_pure_katakana text = true ↔
      (text ≠ "" ∧ is_kanji text = false ∧
       text.data.any isHiraganaChar = false ∧
       text.data.all pureKatakanaAllowed = true ∧
       text.data.any isKatakanaChar = true)) ∧
    (text.data.any isKatakanaChar = false →
      is_pure_katakana text = false) := by
  constructor
  · simp only [is_pure_katakana]
    by_cases h0 : text = ""
    · simp [h0]
    · by_cases h1 : is_kanji text = true
      · simp [h0, h1]
      · by_cases h2 : text.data.any isHiraganaChar = true
        · simp [h0, h1, h2]
        · by_cases h3 : text.data.all pureKatakanaAllowed = true
          · simp [h0, h1, h2, h3]
          · simp [h0, h1, h2, h3]
  · intro h
    simp only [is_pure_katakana]
    split
    · rfl
    split
    · rfl
    split
    · rfl
    split
    · rfl
    exact h

/-- Witness for C7's amended implication clause at the all-whitespace
input "  " and at the ASCII-punctuation input "...". -/
theorem c7_pure_katakana_witness :
    is_pure_katakana "  " = false ∧ is_pure_katakana "..." = false :=
  ⟨(c7_pure_katakana_characterization "  ").2 (by decide),
   (c7_pure_katakana_characterization "...").2 (by decide)⟩

/-- C4: create_anki_package fails with the empty-deck error exactly when
the compiled note list is empty, and a returned package never has an empty
note list. -/
theorem c4_empty_deck_error (fe : String → Bool) (results_dir : String)
    (items : List Item) (pkg : Package) :
    (create_anki_package fe results_dir items = Except.error emptyDeckMsg ↔
      items.flatMap itemNotes = []) ∧
    (create_anki_package fe results_dir items = Except.ok pkg →
      pkg.notes ≠ []) := by
  constructor
  · simp only [create_anki_package]
    split
    next h =>
      rw [List.length_eq_zero] at h
      simp [h]
    next h =>
      rw [List.length_eq_zero] at h  -- h : ¬ (flatMap = [])... length form
      simp [h]
  · intro hok
    simp only [create_anki_package] at hok
    split at hok
    · exact absurd hok (by simp)
    next h =>
      rw [List.length_eq_zero] at h
      cases hok
      simpa using h

/-- Witness for C4: the empty item list errors, and the single-note deck
built from the spec's "ねこ" sample comes back with a non-empty note
list. -/
theorem c4_empty_deck_error_witness :
    create_anki_package fe_0 "results" ([] : List Item) =
      Except.error emptyDeckMsg ∧
    pkgNeko.notes ≠ [] :=
  ⟨(c4_empty_deck_error fe_0 "results" [] (Package.mk [] [])).1.mpr rfl,
   (c4_empty_deck_error fe_0 "results" [itemNeko] pkgNeko).2 rfl⟩

/-- Helper: an item whose generation mode is none of "both", "jp_en",
"en_jp" contributes no notes. -/
theorem itemNotes_nil_of_unrecognized_mode (item : Item)
    (h1 : item.generation_mode ≠ "both")
    (h2 : item.generation_mode ≠ "jp_en")
    (h3 : item.generation_mode ≠ "en_jp") :
    itemNotes item = [] := by
  obtain ⟨k, gm, an⟩ := item
  simp only at h1 h2 h3
  cases an <;> simp [itemNotes, h1, h2, h3]

/-- C10: an item with any generation_mode other than "both"/"jp_en"/"en_jp"
(including "forward" and "reverse") yields zero notes and no validation
error; a batch made entirely of such items fails only with the empty-deck
error. -/
theorem c10_unrecognized_mode_silent (fe : String → Bool)
    (results_dir : String) (item : Item) (items : List Item)
    (hmode : item.generation_mode ≠ "both" ∧ item.generation_mode ≠ "jp_en" ∧
      item.generation_mode ≠ "en_jp")
    (hall : ∀ i ∈ items, i.generation_mode ≠ "both" ∧
      i.generation_mode ≠ "jp_en" ∧ i.generation_mode ≠ "en_jp") :
    itemNotes item = [] ∧
    create_anki_package fe results_dir items = Except.error emptyDeckMsg := by
  constructor
  · exact itemNotes_nil_of_unrecognized_mode item hmode.1 hmode.2.1 hmode.2.2
  · have hnil : items.flatMap itemNotes = [] := by
      rw [List.flatMap_eq_nil_iff]
      intro i hi
      exact itemNotes_nil_of_unrecognized_mode i (hall i hi).1 (hall i hi).2.1
        (hall i hi).2.2
    simp [create_anki_package, hnil]

/-- Witness for C10 at the mode string "forward". -/
theorem c10_unrecognized_mode_witness :
    itemNotes itemForward = [] ∧
    create_anki_package fe_0 "results" [itemForward] =
      Except.error emptyDeckMsg :=
  c10_unrecognized_mode_silent fe_0 "results" itemForward [itemForward]
    (by decide) (by decide)

/-- Helper: the Vocabulary-Kanji field of a built note is the displayed
headword — the kanji surface when truthy, else the hiragana reading. -/
theorem build_note_headword (md5hex : List UInt8 → String)
    (b64 : String → Option (List UInt8)) (w : Word) :
    (build_anki_note md5hex b64 w).fields.vocabularyKanji =
      (if optTruthy w.kanji then w.kanji.getD "" else w.reading_hiragana) :=
  rfl

/-- Helper: the Vocabulary-English field of a built note is the
translation. -/
theorem build_note_translation (md5hex : List UInt8 → String)
    (b64 : String → Option (List UInt8)) (w : Word) :
    (build_anki_note md5hex b64 w).fields.vocabularyEnglish =
      w.translation :=
  rfl

/-- C1: a forward (Japanese-to-English) note is produced iff the mode is
"both" or "jp_en" and the displayed headword (kanji surface, or the
hiragana reading when there is no kanji) is non-blank; a reverse
(English-to-Japanese) note is produced iff the mode is "both" or "en_jp"
and the translation is non-blank; in particular a word with blank
translation, mode "both" and non-blank headword yields exactly one note,
the forward one. -/
theorem c1_note_eligibility (md5hex : List UInt8 → String)
    (b64 : String → Option (List UInt8)) (w : Word) :
    ((∃ n ∈ itemNotes (mkItem md5hex b64 w), n.direction = Direction.jp_en) ↔
      ((w.generation_mode = "both" ∨ w.generation_mode = "jp_en") ∧
       pyBlank (if optTruthy w.kanji then w.kanji.getD ""
                else w.reading_hiragana) = false)) ∧
    ((∃ n ∈ itemNotes (mkItem md5hex b64 w), n.direction = Direction.en_jp) ↔
      ((w.generation_mode = "both" ∨ w.generation_mode = "en_jp") ∧
       pyBlank w.translation = false)) ∧
    (w.generation_mode = "both" → pyBlank w.translation = true →
      pyBlank (if optTruthy w.kanji then w.kanji.getD ""
               else w.reading_hiragana) = false →
      ∃ n, itemNotes (mkItem md5hex b64 w) = [n] ∧
        n.direction = Direction.jp_en) := by
  simp only [itemNotes, mkItem, build_anki_note]
  by_cases hb1 : pyBlank (if optTruthy w.kanji then w.kanji.getD ""
      else w.reading_hiragana) = true <;>
    by_cases hb2 : pyBlank w.translation = true <;>
    by_cases hm1 : w.generation_mode = "both" <;>
    by_cases hm2 : w.generation_mode = "jp_en" <;>
    by_cases hm3 : w.generation_mode = "en_jp" <;>
    simp [hb1, hb2, hm1, hm2, hm3]

/-- Witness for C1: the spec's "ねこ"/"cat" sample produces both notes,
and its blank-translation variant produces exactly the forward note. -/
theorem c1_note_eligibility_witness :
    ((∃ n ∈ itemNotes itemNeko, n.direction = Direction.jp_en) ∧
     (∃ n ∈ itemNotes itemNeko, n.direction = Direction.en_jp)) ∧
    (∃ n, itemNotes (mkItem md5_0 b64_0 { wNeko with translation := "" }) =
      [n] ∧ n.direction = Direction.jp_en) :=
  ⟨⟨(c1_note_eligibility md5_0 b64_0 wNeko).1.mpr
      ⟨Or.inl rfl, by decide⟩,
    (c1_note_eligibility md5_0 b64_0 wNeko).2.1.mpr
      ⟨Or.inl rfl, by decide⟩⟩,
   (c1_note_eligibility md5_0 b64_0 { wNeko with translation := "" }).2.2
      rfl (by decide) (by decide)⟩

/-- C8 counterexample: the word 日 with a blank hiragana reading still
gets a forward note (the kanji headword is non-blank), and that note's
Vocabulary-Kana reading field is blank even though the word has kanji —
refuting the unrestricted "blank exactly when the word has no kanji". -/
theorem c8_field_population_counterexample :
    jpNote (mkItem md5_0 b64_0 wBlankReading) = some noteJpBlank ∧
    has_kanji (mkItem md5_0 b64_0 wBlankReading) = true ∧
    pyBlank (noteJpBlank.fields.getD 2 "") = true := by
  refine ⟨by decide, by decide, by decide⟩

/-- C8 amended: in the forward note, the Vocabulary-Kana reading field
carries the hiragana reading when the item has (non-blank) kanji and is
left empty otherwise — so it is blank exactly when the word has no kanji
or the hiragana reading is itself blank; in the reverse note the
translation field holds the two-space placeholder, which is non-empty
whitespace. -/
theorem c8_field_population (md5hex : List UInt8 → String)
    (b64 : String → Option (List UInt8)) (w : Word) (nf ne : GNote) :
    (jpNote (mkItem md5hex b64 w) = some nf →
      nf.fields.getD 2 "" =
        (if has_kanji (mkItem md5hex b64 w) then w.reading_hiragana
         else "") ∧
      (pyBlank (nf.fields.getD 2 "") = true ↔
        (has_kanji (mkItem md5hex b64 w) = false ∨
         pyBlank w.reading_hiragana = true))) ∧
    (enNote (mkItem md5hex b64 w) = some ne →
      ne.fields.getD 3 "" = "  " ∧ ("  " : String) ≠ "" ∧
        pyBlank "  " = true) := by
  simp only [jpNote, enNote, itemNotes, mkItem, build_anki_note]
  by_cases hk : (optTruthy w.kanji && !pyBlank (w.kanji.getD "")) = true <;>
    by_cases hb1 : pyBlank (if optTruthy w.kanji then w.kanji.getD ""
        else w.reading_hiragana) = true <;>
    by_cases hb2 : pyBlank w.translation = true <;>
    by_cases hm1 : w.generation_mode = "both" <;>
    by_cases hm2 : w.generation_mode = "jp_en" <;>
    by_cases hm3 : w.generation_mode = "en_jp" <;>
    constructor <;>
    intro hsome <;>
    simp [has_kanji, mkItem, hk, hb1, hb2, hm1, hm2, hm3] at hsome ⊢ <;>
    try subst hsome <;>
    simp [hk] <;>
    decide

/-- Witness for C8 at a kanji word (forward field carries the reading) and
at the kanji-free sample (reverse translation field is the placeholder). -/
theorem c8_field_population_witness :
    (noteJpPost.fields.getD 2 "" =
      (if has_kanji (mkItem md5_0 b64_0 wPost) then wPost.reading_hiragana
       else "") ∧
     (pyBlank (noteJpPost.fields.getD 2 "") = true ↔
       (has_kanji (mkItem md5_0 b64_0 wPost) = false ∨
        pyBlank wPost.reading_hiragana = true))) ∧
    (noteEnNeko.fields.getD 3 "" = "  " ∧ ("  " : String) ≠ "" ∧
      pyBlank "  " = true) :=
  ⟨(c8_field_population md5_0 b64_0 wPost noteJpPost noteEnNeko).1
      (by decide),
   (c8_field_population md5_0 b64_0 wNeko noteJpPost noteEnNeko).2
      (by decide)⟩

/-- C9: when the embedded sentence image fails to decode, the image field
is left empty and no image asset is emitted, but the word's note is still
built and every word of the batch still yields a processed item. -/
theorem c9_malformed_image_nonfatal (md5hex : List UInt8 → String)
    (b64 : String → Option (List UInt8)) (w : Word) (ws : List Word)
    (hmem : w ∈ ws)
    (hfail : ((splitComma1 w.sentence_image).map Prod.snd).bind b64 = none) :
    (build_anki_note md5hex b64 w).fields.sentenceImage = "" ∧
    (build_anki_note md5hex b64 w).images = [] ∧
    (process_vocabulary md5hex b64 ws).length = ws.length ∧
    mkItem md5hex b64 w ∈ process_vocabulary md5hex b64 ws := by
  have hip : (imageParts md5hex b64 w.sentence_image w.sentence_english).1 = ""
      ∧ (imageParts md5hex b64 w.sentence_image w.sentence_english).2.2 = [] := by
    unfold imageParts
    by_cases h0 : w.sentence_image = ""
    · simp [h0]
    · rw [if_neg h0]
      by_cases h1 : strStartsWith w.sentence_image "data:image/" = true
      · simp only [h1, Bool.not_true, Bool.false_eq_true, if_false]
        cases hs : splitComma1 w.sentence_image with
        | none => simp
        | some pr =>
          obtain ⟨ph, pe⟩ := pr
          rw [hs] at hfail
          have hb : b64 pe = none := by simpa using hfail
          cases hf : imageFormatOf w.sentence_image with
          | none => simp
          | some fmt => simp [hb]
      · simp [h1]
  refine ⟨hip.1, hip.2, ?_, ?_⟩
  · simp [process_vocabulary]
  · exact List.mem_map_of_mem _ hmem

/-- Helper: stripping distributes over a bracket-free prefix. -/
theorem stripBracketsAux_append_clean (xs ys : List Char)
    (h : ∀ c ∈ xs, c ≠ '[' ∧ c ≠ ']') :
    stripBracketsAux false (xs ++ ys) = xs ++ stripBracketsAux false ys := by
  induction xs with
  | nil => simp
  | cons c cs ih =>
    have hc := h c (List.mem_cons_self c cs)
    simp only [List.cons_append, stripBracketsAux, if_neg hc.1,
      List.append_eq]
    rw [ih (fun d hd => h d (List.mem_cons_of_mem c hd))]

/-- Helper: inside a bracket group, everything up to the closing bracket
is dropped. -/
theorem stripBracketsAux_skip (seg ys : List Char)
    (h : ∀ c ∈ seg, c ≠ ']') :
    stripBracketsAux true (seg ++ ']' :: ys) = stripBracketsAux false ys := by
  induction seg with
  | nil => simp [stripBracketsAux]
  | cons c cs ih =>
    have hc := h c (List.mem_cons_self c cs)
    simp only [List.cons_append, stripBracketsAux, if_neg hc]
    exact ih (fun d hd => h d (List.mem_cons_of_mem c hd))

/-- Helper: for bracket-free tokens and readings, stripping the aligner's
output leaves exactly the concatenated token surfaces, at any cursor. -/
theorem strip_buildFuriganaAux (conv : String → String) (rdata : List Char)
    (hr : ∀ c ∈ rdata, c ≠ '[' ∧ c ≠ ']') :
    ∀ (tokens : List String) (i : Nat),
      (∀ t ∈ tokens, ∀ c ∈ t.data, c ≠ '[' ∧ c ≠ ']') →
      stripBracketsAux false (buildFuriganaAux conv rdata tokens i).data =
        (tokens.map String.data).flatten := by
  intro tokens
  induction tokens with
  | nil =>
    intro i ht
    simp [buildFuriganaAux, stripBracketsAux]
  | cons t ts ih =>
    intro i ht
    have htok := ht t (List.mem_cons_self t ts)
    have hts := fun u hu => ht u (List.mem_cons_of_mem t hu)
    have hseg : ∀ c ∈ (rdata.drop i).take (conv t).length, c ≠ ']' :=
      fun c hc =>
        (hr c (List.drop_subset i rdata (List.take_subset _ _ hc))).2
    simp only [buildFuriganaAux]
    by_cases he : t = conv t
    · rw [if_pos he, String.data_append,
        stripBracketsAux_append_clean _ _ htok,
        ih (i + (conv t).length) hts]
      simp
    · rw [if_neg he]
      simp only [String.data_append, List.append_assoc,
        List.singleton_append, List.cons_append, List.nil_append]
      rw [stripBracketsAux_append_clean _ _ htok]
      have hopen : ∀ z : List Char,
          stripBracketsAux false ('[' :: z) = stripBracketsAux true z := by
        intro z
        simp [stripBracketsAux]
      rw [hopen, stripBracketsAux_skip _ _ hseg,
        ih (i + (conv t).length) hts]
      simp

/-- C2: whenever the per-token kana lengths sum to the reading length (and
tokens and reading are bracket-free, and the tokenizer's surfaces
concatenate to the word, as the tokenizer contract guarantees), the
aligner's output with all bracket annotations stripped is exactly the
kanji word's surface form. -/
theorem c2_strip_restores_surface (conv : String → String)
    (tagger : String → List String) (kanji_word reading_hiragana : String)
    (hsum : ((tagger kanji_word).map (fun t => (conv t).length)).sum =
      reading_hiragana.length)
    (htok : ∀ t ∈ tagger kanji_word, ∀ c ∈ t.data, c ≠ '[' ∧ c ≠ ']')
    (hread : ∀ c ∈ reading_hiragana.data, c ≠ '[' ∧ c ≠ ']')
    (hconcat : ((tagger kanji_word).map String.data).flatten = kanji_word.data) :
    stripBrackets (build_furigana conv tagger kanji_word reading_hiragana) =
      kanji_word := by
  apply String.ext
  show stripBracketsAux false
      (buildFuriganaAux conv reading_hiragana.data (tagger kanji_word) 0).data
    = kanji_word.data
  rw [strip_buildFuriganaAux conv reading_hiragana.data hread
    (tagger kanji_word) 0 htok, hconcat]

/-- Witness for C2 at 郵便局 with reading ゆうびんきょく, tokenized as
郵便 + 局 with kana lengths 4 + 3 = 7. -/
theorem c2_strip_restores_surface_witness :
    stripBrackets
      (build_furigana convYubin taggerYubin "郵便局" "ゆうびんきょく") =
      "郵便局" :=
  c2_strip_restores_surface convYubin taggerYubin "郵便局" "ゆうびんきょく"
    (by decide) (by decide) (by decide) (by decide)

/-- Witness for C9 at a word carrying an undecodable data URL. -/
theorem c9_malformed_image_witness :
    (build_anki_note md5_0 b64_0 wBadImage).fields.sentenceImage = "" ∧
    (build_anki_note md5_0 b64_0 wBadImage).images = [] ∧
    (process_vocabulary md5_0 b64_0 [wNeko, wBadImage]).length = 2 ∧
    mkItem md5_0 b64_0 wBadImage ∈
      process_vocabulary md5_0 b64_0 [wNeko, wBadImage] :=
  c9_malformed_image_nonfatal md5_0 b64_0 wBadImage [wNeko, wBadImage]
    (by simp) (by decide)

/-- Helper: when the image block emits an asset, that asset's filename is
the hash-and-extension form built from its own bytes and the data URL's
declared subtype. -/
theorem imageParts_asset_filename (m : List UInt8 → String)
    (b : String → Option (List UInt8)) (img eng : String) (a : ImageAsset)
    (h : (imageParts m b img eng).2.2 = [a]) :
    ∃ fmt, imageFormatOf img = some fmt ∧
      a.filename = imageFilenameFor m a.data fmt := by
  unfold imageParts at h
  by_cases h0 : img = ""
  · rw [if_pos h0] at h
    simp at h
  · rw [if_neg h0] at h
    by_cases h1 : strStartsWith img "data:image/" = true
    · rw [if_neg (by simp [h1])] at h
      split at h
      · rename_i fst encoded fmt heq1 heq2
        split at h
        · simp at h
        · rename_i bytes hbe
          simp only [List.cons.injEq, and_true] at h
          exact ⟨fmt, heq2, by rw [← h]⟩
      · simp at h
    · rw [if_pos (by simp [h1])] at h
      simp at h

/-- C6 counterexample: two embedded images with the same payload (hence
byte-identical decoded content) but different declared subtypes get
different filenames — the extension comes from the declared mime subtype,
not from the content, so content identity alone does not determine the
filename as the claim states. -/
theorem c6_image_filename_counterexample :
    (imageParts c6md5 c6b64 c6imgPng "").2.2.map ImageAsset.data =
      (imageParts c6md5 c6b64 c6imgJpeg "").2.2.map ImageAsset.data ∧
    (imageParts c6md5 c6b64 c6imgPng "").2.2.map ImageAsset.filename =
      ["sentence_01234567.png"] ∧
    (imageParts c6md5 c6b64 c6imgJpeg "").2.2.map ImageAsset.filename =
      ["sentence_01234567.jpg"] := by
  refine ⟨?_, ?_, ?_⟩ <;> decide

/-- C6 amended: two embedded images that decode to byte-identical content
and declare the same image subtype produce equal filenames of the
content-hash form sentence_hash.ext, and the deck's deduplicated media
list holds each collected media path exactly once. -/
theorem c6_image_dedup (m : List UInt8 → String)
    (b : String → Option (List UInt8)) (img1 img2 eng1 eng2 : String)
    (a1 a2 : ImageAsset) (fe : String → Bool) (results_dir : String)
    (items : List Item) (pkg : Package) (p : String)
    (h1 : (imageParts m b img1 eng1).2.2 = [a1])
    (h2 : (imageParts m b img2 eng2).2.2 = [a2])
    (hbytes : a1.data = a2.data)
    (hfmt : imageFormatOf img1 = imageFormatOf img2)
    (hok : create_anki_package fe results_dir items = Except.ok pkg)
    (hp : p ∈ items.flatMap (itemMedia fe results_dir)) :
    a1.filename = a2.filename ∧
    a1.filename =
      imageFilenameFor m a1.data ((imageFormatOf img1).getD "") ∧
    pkg.media_files.count p = 1 := by
  obtain ⟨f1, hf1, hn1⟩ := imageParts_asset_filename m b img1 eng1 a1 h1
  obtain ⟨f2, hf2, hn2⟩ := imageParts_asset_filename m b img2 eng2 a2 h2
  have hf12 : f1 = f2 := by
    rw [hf1, hf2] at hfmt
    exact Option.some.inj hfmt
  refine ⟨?_, ?_, ?_⟩
  · rw [hn1, hn2, hbytes, hf12]
  · rw [hn1, hf1]
    rfl
  · simp only [create_anki_package] at hok
    split at hok
    · exact absurd hok (by simp)
    · cases hok
      rw [List.count_dedup]
      simp [hp]

/-- Witness for C6 at two words embedding the same png data URL: one
asset filename, and its materialized path occurs once in the deck's
media list. -/
theorem c6_image_dedup_witness :
    c6asset.filename = c6asset.filename ∧
    c6asset.filename =
      imageFilenameFor c6md5 c6asset.data ((imageFormatOf c6imgPng).getD "") ∧
    c6pkg.media_files.count c6path = 1 :=
  c6_image_dedup c6md5 c6b64 c6imgPng c6imgPng "" "A post office."
    c6asset c6asset fe_0 "R" c6items c6pkg c6path
    (by decide) (by decide) rfl rfl rfl (by decide)

end AnkiKards
